import Mathlib

/-!
Shallow embedding of the ilastik data-selection operator (`opDataSelection.py`)
and the DVID export operator (`opExportDvidVolume.py`), together with theorems
settling the specification claims about them.

Conventions of the embedding:
* Python exceptions become the inductive type `Exc`; fallible code returns
  `Except Exc _`.
* The mutable operator (`OpDataSelection`) becomes explicit state passing over
  the record `OpState`; child-operator interactions that live outside the two
  embedded files (constructing a reader, `setValue`/`connect` on its slots) are
  fallible external calls, driven by an oracle `fails : Nat -> Bool` indexed by
  the static program site of the call.
* Provider metadata (an axis-tagged shape) is an input of the model, since the
  concrete reader operators are external to the embedded sources.
-/

/-- `DatasetInfo.Location` (opDataSelection.py lines 56-60). -/
inductive Location where
  | FileSystem
  | ProjectInternal
  | PreloadedArray
deriving Repr, DecidableEq, BEq

/-- Payload of `DatasetConstraintError` messages raised inside
`OpDataSelection.setupOutputs`; the constructors carry the data that the
source interpolates into the message strings. -/
inductive ConstraintMsg where
  /-- line 530: "Data must always have at leaset the axes x and y ...". -/
  | missingXY
  /-- lines 547-548: the axes of the dataset fit none of the allowed orders. -/
  | incompatibleAxes (axisKeys : List Char) (orders : List (List Char))
deriving Repr, DecidableEq

/-- Python exceptions of the embedded code. -/
inductive Exc where
  /-- `DatasetConstraintError(operator_name, message)`. -/
  | datasetConstraint (opName : String) (msg : ConstraintMsg)
  /-- line 504: `Exception` raised when axis reinterpretation fits no case. -/
  | reinterpretError (taggedShape : List (Char × Nat)) (infoKeys : List Char)
  /-- `OpDataSelection.InvalidDimensionalityError` (lines 383-391). -/
  | invalidDimensionality (message : String)
  /-- an exception raised by an external child-operator call at a program site. -/
  | external (site : Nat)
  /-- Python `NameError` for an undefined variable name. -/
  | nameError (name : String)
  /-- Python `AssertionError`. -/
  | assertionError
  /-- Python `IndexError`. -/
  | indexError
  /-- Python `ValueError`. -/
  | valueError
  /-- a plain Python `Exception` carrying a message. -/
  | plainExc (msg : String)
  /-- model artifact: recursion fuel ran out (no Python counterpart). -/
  | fuelExhausted
deriving Repr, DecidableEq

/-- Whether an exception is the constraint-violation signal
(`DatasetConstraintError`). -/
def Exc.isConstraintError : Exc → Bool
  | .datasetConstraint _ _ => true
  | _ => false

/-- Observable state of one `OpDataSelection` instance.  `opReaders` is
`self._opReaders` (child-operator ids in append order); `constructed` and
`appendLog` are ghost logs of all child constructions and of all
`_opReaders.append` calls; `cleanedUp` logs `reader.cleanUp()` calls in the
order they happen.  `imageMeta`/`nonTransposedMeta` are `some` tagged shape
exactly when the `Image`/`_NonTransposedImage` output is connected (ready). -/
structure OpState where
  nextId : Nat
  opReaders : List Nat
  constructed : List Nat
  appendLog : List Nat
  cleanedUp : List Nat
  imageMeta : Option (List (Char × Nat))
  nonTransposedMeta : Option (List (Char × Nat))
  allowLabelsReady : Bool
  imageNameReady : Bool
deriving Repr, DecidableEq

/-- A freshly constructed operator: no children, no ready outputs. -/
def initState : OpState :=
  { nextId := 0, opReaders := [], constructed := [], appendLog := [],
    cleanedUp := [], imageMeta := none, nonTransposedMeta := none,
    allowLabelsReady := false, imageNameReady := false }

/-- The inputs `setupOutputs` reads: the `Dataset` slot's `DatasetInfo` fields
it uses, the provider slot's metadata, the role name and the constructor
argument `forceAxisOrder` (`[]` models a falsy value: `None`, `False` or an
empty list). -/
structure Config where
  location : Location
  realDataSource : Bool
  subvolumeRoi : Option (List (Nat × Nat))
  providerTagged : List (Char × Nat)
  providerDtypeUint8 : Bool
  dsDrange : Option (Int × Int)
  dsNormalizeDisplay : Option Bool
  dsAxistags : Option (List Char)
  dsOriginalAxistags : Option (List Char)
  dsDisplayMode : String
  dsAllowLabels : Bool
  roleName : String
  forceAxisOrder : List (List Char)

/-- External failure oracle: `fails site = true` makes the child-operator call
at that static program site raise. -/
abbrev Oracle := Nat → Bool

/-- The oracle under which every external child-operator call succeeds. -/
def noFail : Oracle := fun _ => false

/-- Allocate a child operator: returns its id and logs the construction. -/
def constructOp (s : OpState) : Nat × OpState :=
  (s.nextId, { s with nextId := s.nextId + 1,
                      constructed := s.constructed ++ [s.nextId] })

/-- `self._opReaders.append(op)` (also logged in the ghost `appendLog`). -/
def appendReader (i : Nat) (s : OpState) : OpState :=
  { s with opReaders := s.opReaders ++ [i], appendLog := s.appendLog ++ [i] }

/-- `OpDataSelection.internalCleanup` (lines 413-419): if the reader list is
non-empty, disconnect `Image` and `_NonTransposedImage`, call `cleanUp()` on
each reader in reverse creation order, and empty the list; otherwise no-op. -/
def internalCleanup (s : OpState) : OpState :=
  if s.opReaders = [] then s
  else { s with imageMeta := none, nonTransposedMeta := none,
                cleanedUp := s.cleanedUp ++ s.opReaders.reverse,
                opReaders := [] }

/-- Provider construction (lines 426-462): pick a reader according to the
dataset location, configure it, and append it to `self._opReaders`.  Each
external call gets a static site number; a failure raises there with the state
it had at that moment (so a constructed-but-not-yet-appended reader stays in
`constructed` without entering `opReaders`). -/
def mkProvider (cfg : Config) (fails : Oracle) (s : OpState) :
    Except (Exc × OpState) OpState :=
  match cfg.location with
  | .ProjectInternal =>
      -- OpStreamingH5N5Reader(parent=self); H5N5File/InternalPath setValue
      if fails 0 then .error (.external 0, s) else
      let (i, s) := constructOp s
      if fails 1 then .error (.external 1, s) else
      if fails 2 then .error (.external 2, s) else
      .ok (appendReader i s)
  | .PreloadedArray =>
      -- OpArrayPiper(parent=self); Input.setValue(preloaded_array)
      if fails 3 then .error (.external 3, s) else
      let (i, s) := constructOp s
      if fails 4 then .error (.external 4, s) else
      .ok (appendReader i s)
  | .FileSystem =>
      if cfg.realDataSource then
        -- OpInputDataReader(parent=self); SubVolumeRoi (only when given),
        -- WorkingDirectory, SequenceAxis, FilePath setValue calls
        if fails 5 then .error (.external 5, s) else
        let (i, s) := constructOp s
        if cfg.subvolumeRoi.isSome && fails 6 then .error (.external 6, s) else
        if fails 7 then .error (.external 7, s) else
        if fails 8 then .error (.external 8, s) else
        if fails 9 then .error (.external 9, s) else
        .ok (appendReader i s)
      else
        -- OpZeroDefault(parent=self); MetaInput.setValue(zeros)
        if fails 10 then .error (.external 10, s) else
        let (i, s) := constructOp s
        if fails 11 then .error (.external 11, s) else
        .ok (appendReader i s)

/-- The metadata dict built in lines 466-510; `Option` fields model keys that
are only conditionally inserted into the dict. -/
structure Metadata where
  displayMode : String
  channelNames : List String
  drange : Option (Int × Int)
  normalizeDisplay : Option Bool
  axistags : Option (List Char)
  originalAxistags : Option (List Char)
  subvolumeRoi : Option (List (Nat × Nat))
deriving Repr, DecidableEq

/-- Channel names (lines 469-477): `role-i` per channel when the provider has
more than one channel, otherwise the bare role name. -/
def channelNamesOf (cfg : Config) : List String :=
  let numChannels :=
    match cfg.providerTagged.lookup 'c' with
    | none => 0
    | some n => n
  if numChannels > 1 then
    (List.range numChannels).map (fun i => cfg.roleName ++ "-" ++ toString i)
  else [cfg.roleName]

/-- Display-range injection (lines 479-482): the dataset's `drange` when set;
otherwise `(0, 255)` exactly when the provider dtype is uint8; otherwise the
key is not inserted. -/
def drangeOf (cfg : Config) : Option (Int × Int) :=
  match cfg.dsDrange with
  | some d => some d
  | none => if cfg.providerDtypeUint8 then some ((0 : Int), (255 : Int)) else none

/-- Line 495-501: walk the provider's tagged shape; axes with extent > 1 (the
squeezed axes) consume the user-supplied keys in order, singleton axes consume
dummy labels.  CPython pops the dummies from a set in unspecified order; the
model fixes the order t,c,z,y,x. -/
def buildOutAxes (tagged : List (Char × Nat)) (infoKeys dummy : List Char) :
    List Char :=
  match tagged with
  | [] => []
  | (_, v) :: rest =>
      if v > 1 then
        infoKeys.headD '?' :: buildOutAxes rest infoKeys.tail dummy
      else
        dummy.headD '?' :: buildOutAxes rest infoKeys dummy.tail

/-- Axis reinterpretation (lines 485-505).  Returns the `axistags` entry the
metadata dict gets (`none` when `datasetInfo.axistags` is unset) or the
`Exception` of line 504. -/
def axistagsOverride (cfg : Config) : Except Exc (Option (List Char)) :=
  match cfg.dsAxistags with
  | none => .ok none
  | some infoKeys =>
      let tagged := cfg.providerTagged
      let providerKeys := tagged.map Prod.fst
      let squeezedLen := (tagged.filter (fun kv => kv.2 > 1)).length
      if infoKeys.length = tagged.length then .ok (some infoKeys)
      else if infoKeys.length + 1 = tagged.length
          && (providerKeys.filter (fun k => !(infoKeys.contains k))) ≠ []
          && (providerKeys.filter (fun k => !(infoKeys.contains k))).all
               (fun k => k = 'c') then
        .ok (some (infoKeys ++ ['c']))
      else if infoKeys.length = squeezedLen then
        .ok (some (buildOutAxes tagged infoKeys
          (("tczyx".toList).filter (fun c => !(infoKeys.contains c)))))
      else .error (.reinterpretError tagged infoKeys)

/-- Metadata built by lines 466-510, ready for `OpMetadataInjector`. -/
def buildMetadata (cfg : Config) : Except Exc Metadata :=
  match axistagsOverride cfg with
  | .error e => .error e
  | .ok tagsEntry =>
      .ok { displayMode := cfg.dsDisplayMode,
            channelNames := channelNamesOf cfg,
            drange := drangeOf cfg,
            normalizeDisplay := cfg.dsNormalizeDisplay,
            axistags := tagsEntry,
            originalAxistags := cfg.dsOriginalAxistags,
            subvolumeRoi := cfg.subvolumeRoi }

/-- The tagged shape on the injector's output slot: the provider's shape, with
the axis keys replaced when the metadata dict overrides `axistags`. -/
def effectiveTagged (cfg : Config) (md : Metadata) : List (Char × Nat) :=
  match md.axistags with
  | none => cfg.providerTagged
  | some ks => ks.zip (cfg.providerTagged.map Prod.snd)

/-- Translation of `sorted(candidate_orders, key=len)[0]` (line 551): Python's
sort is stable, so the head of the sorted list is the first element of minimal
length; `none` exactly on the empty list. -/
def firstShortest : List (List Char) → Option (List Char)
  | [] => none
  | x :: xs =>
      match firstShortest xs with
      | none => some x
      | some y => if y.length < x.length then some y else some x

/-- Output-order selection (lines 532-557).  With a truthy `forceAxisOrder`,
keep the candidates containing every axis of extent > 1 and pick the first
shortest, failing with a `DatasetConstraintError` when none qualifies;
otherwise use the provider's own axis order. -/
def selectOutputOrder (force : List (List Char)) (effTagged : List (Char × Nat)) :
    Except Exc (List Char) :=
  if force ≠ [] then
    let minimalAxes := (effTagged.filter (fun kv => kv.2 > 1)).map Prod.fst
    let candidateOrders := force.filter
      (fun order => minimalAxes.all (fun a => order.contains a))
    match firstShortest candidateOrders with
    | none => .error (.datasetConstraint "DataSelection"
        (.incompatibleAxes (effTagged.map Prod.fst) force))
    | some o => .ok o
  else .ok (effTagged.map Prod.fst)

/-- Modelled from the spec: `OpReorderAxes` (lazyflow.operators.opReorderAxes,
not under src/) -- the spec says the selection operator "inserts a final
reordering stage that transposes/inserts singleton axes to match the chosen
order".  The output's tagged shape has one entry per axis of the target order,
with the input's extent when the axis is present and 1 (an inserted singleton)
otherwise. -/
def reorderTagged (input : List (Char × Nat)) (order : List Char) :
    List (Char × Nat) :=
  order.map (fun k => (k, (input.lookup k).getD 1))

/-- The body of the `try:` block of `setupOutputs` (lines 425-574).  Errors
carry the operator state at the moment of the raise. -/
def tryBody (cfg : Config) (fails : Oracle) (s : OpState) :
    Except (Exc × OpState) OpState :=
  match mkProvider cfg fails s with
  | .error es => .error es
  | .ok s =>
    match buildMetadata cfg with
    | .error e => .error (e, s)
    | .ok md =>
      -- OpMetadataInjector(parent=self); Input.connect; Metadata.setValue;
      -- append (lines 519-523)
      if fails 12 then .error (.external 12, s) else
      let (inj, s) := constructOp s
      if fails 13 then .error (.external 13, s) else
      if fails 14 then .error (.external 14, s) else
      let s := appendReader inj s
      let effTagged := effectiveTagged cfg md
      -- self._NonTransposedImage.connect(providerSlot)  (line 525)
      let s := { s with nonTransposedMeta := some effTagged }
      -- x/y presence check (lines 527-530)
      if !((effTagged.map Prod.fst).contains 'x')
          || !((effTagged.map Prod.fst).contains 'y') then
        .error (.datasetConstraint "DataSelection" .missingXY, s)
      else
        match selectOutputOrder cfg.forceAxisOrder effTagged with
        | .error e => .error (e, s)
        | .ok order0 =>
          -- append 'c' when the chosen order lacks a channel axis (558-559)
          let order := if order0.contains 'c' then order0 else order0 ++ ['c']
          -- OpReorderAxes(parent=self, AxisOrder=..., Input=...) and append
          -- (lines 561-562), then Image.connect(op5.Output) (line 564)
          if fails 15 then .error (.external 15, s) else
          let (op5, s) := constructOp s
          let s := appendReader op5 s
          let s := { s with imageMeta := some (reorderTagged effTagged order),
                            allowLabelsReady := true,
                            imageNameReady := true }
          .ok s

/-- `OpDataSelection.setupOutputs` (lines 421-578): clean up the previous
configuration, run the body, and on any exception clean up again and re-raise
the same exception (bare `raise`, lines 576-578). -/
def setupOutputs (cfg : Config) (fails : Oracle) (s0 : OpState) :
    Except Exc Unit × OpState :=
  match tryBody cfg fails (internalCleanup s0) with
  | .ok s2 => (.ok (), s2)
  | .error (e, sf) => (.error e, internalCleanup sf)

/-- `lazyflow.utility.PathComponents` result (external to src/): the split of
one path into its external part, internal (in-file) part and extension. -/
structure PathComp where
  externalPath : String
  internalPath : String
  extension : String
deriving Repr, DecidableEq

/-- The filesystem and path utilities `DatasetInfo` calls that are external to
the embedded sources (`glob.glob`, `os.path` helpers, `lazyflow.utility`): the
model takes them as parameters. -/
structure FsEnv where
  pathComp : String → PathComp
  splitPath : String → List String
  glob : String → List String
  expanduser : String → String
  isabs : String → Bool
  join : String → String → String
  globH5N5 : String → String → List String
  isUrl : String → Bool
  getcwd : String

/-- `DatasetInfo.pathIsHdf5` (lines 258-260). -/
def pathIsHdf5 (env : FsEnv) (p : String) : Bool :=
  [".ilp", ".h5", ".hdf5"].contains (env.pathComp p).extension

/-- `DatasetInfo.pathIsN5` (lines 265-267). -/
def pathIsN5 (env : FsEnv) (p : String) : Bool :=
  (env.pathComp p).extension == ".n5"

/-- `DatasetInfo.fileHasInternalPaths` (lines 272-274). -/
def fileHasInternalPaths (env : FsEnv) (p : String) : Bool :=
  pathIsHdf5 env p || pathIsN5 env p

/-- Lexicographic comparison of character lists by code point (the order
Python `sorted` uses on strings). -/
def leChars : List Char → List Char → Bool
  | [], _ => true
  | _ :: _, [] => false
  | a :: as, b :: bs => if a == b then leChars as bs else a.toNat < b.toNat

/-- Insertion of a string into a sorted list. -/
def insertSorted (x : String) : List String → List String
  | [] => [x]
  | y :: ys => if leChars x.toList y.toList then x :: y :: ys else y :: insertSorted x ys

/-- Model of Python `sorted` on strings. -/
def sortStrings (l : List String) : List String := l.foldr insertSorted []

/-- Remove duplicates, keeping the first occurrence (models accumulating into
a `set`, which `globInternalPaths` then sorts). -/
def dedupStrings : List String → List String
  | [] => []
  | x :: xs => x :: (dedupStrings xs).filter (fun y => y ≠ x)

/-- `glob_str.lstrip('/')`. -/
def lstripSlash (s : String) : String :=
  String.mk (s.toList.dropWhile (fun c => c == '/'))

/-- Loop body of `DatasetInfo.globInternalPaths` (lines 240-251): open each
file as HDF5 or N5 (raising for any other extension) and collect the matches
of the internal glob. -/
def globAccum (env : FsEnv) (globStr : String) : List String → Except Exc (List String)
  | [] => .ok []
  | p :: rest =>
      if !(pathIsHdf5 env p) && !(pathIsN5 env p) then
        .error (.plainExc (p ++ " is not an 'n5' or 'h5' file"))
      else
        match globAccum env globStr rest with
        | .error e => .error e
        | .ok there => .ok (env.globH5N5 p (lstripSlash globStr) ++ there)

/-- Call descriptor for the mutually recursive path-expansion functions
(`expandPath` and `globInternalPaths` call each other through the loops of
lines 220-233); defunctionalized so the whole recursion is structural on one
fuel counter and computes by kernel reduction. -/
inductive ExpCall where
  /-- `DatasetInfo.expandPath(file_path, cwd)` (lines 215-234). -/
  | path (filePath cwd : String)
  /-- the `for components in pathComponents` loop of `expandPath`. -/
  | comps (cs : List PathComp) (cwd : String)
  /-- the inner `for ext_path in unglobbed_paths` loop (lines 228-233). -/
  | exts (ps : List String) (internalPath : String)
  /-- `DatasetInfo.globInternalPaths(file_path, glob_str)` (lines 236-252),
  with `cwd=None` so the inner `expandPath` resolves against `os.getcwd()`. -/
  | intern (filePath globStr : String)

/-- One interpreter for the four mutually recursive functions above; every
recursive call consumes one unit of fuel. -/
def expandRun (env : FsEnv) : Nat → ExpCall → Except Exc (List String)
  | 0, _ => .error .fuelExhausted
  | fuel + 1, call =>
      match call with
      | .path filePath cwd =>
          match expandRun env fuel (.comps ((env.splitPath filePath).map env.pathComp) cwd) with
          | .error e => .error e
          | .ok paths => .ok (sortStrings paths)
      | .comps [] _ => .ok []
      | .comps (c :: rest) cwd =>
          let externalPath :=
            if env.isabs c.externalPath then c.externalPath
            else env.join cwd c.externalPath
          let unglobbed := env.glob (env.expanduser externalPath)
          if unglobbed = [] then
            .error (.plainExc ("Could not find file at " ++ c.externalPath))
          else
            match expandRun env fuel (.exts unglobbed c.internalPath) with
            | .error e => .error e
            | .ok here =>
                match expandRun env fuel (.comps rest cwd) with
                | .error e => .error e
                | .ok there => .ok (here ++ there)
      | .exts [] _ => .ok []
      | .exts (extPath :: rest) internalPath =>
          if !(fileHasInternalPaths env extPath) || internalPath == "" then
            match expandRun env fuel (.exts rest internalPath) with
            | .error e => .error e
            | .ok there => .ok (extPath :: there)
          else
            match expandRun env fuel (.intern extPath internalPath) with
            | .error e => .error e
            | .ok ips =>
                match expandRun env fuel (.exts rest internalPath) with
                | .error e => .error e
                | .ok there => .ok (ips.map (fun ip => env.join extPath ip) ++ there)
      | .intern filePath globStr =>
          match expandRun env fuel (.path filePath env.getcwd) with
          | .error e => .error e
          | .ok paths =>
              match globAccum env globStr paths with
              | .error e => .error e
              | .ok found => .ok (sortStrings (dedupStrings found))

/-- `DatasetInfo.expandPath` (lines 215-234): split a multi-path string,
resolve each component against `cwd`, glob it (raising eagerly when the glob
matches nothing), expand internal paths of container files, and sort. -/
def expandPathF (env : FsEnv) (fuel : Nat) (filePath cwd : String) :
    Except Exc (List String) :=
  expandRun env fuel (.path filePath cwd)

/-- Longest shared leading run of two strings (the pairwise step of
`os.path.commonprefix`). -/
def sharedLead2 (a b : String) : String :=
  String.mk (go a.toList b.toList)
where
  go : List Char → List Char → List Char
    | x :: xs, y :: ys => if x = y then x :: go xs ys else []
    | _, _ => []

/-- `os.path.commonprefix` over a list of strings. -/
def sharedLead : List String → String
  | [] => ""
  | x :: xs => xs.foldl sharedLead2 x

/-- Split a character list at every occurrence of one separator character
(model of Python `str.split` with a one-character separator). -/
def splitOnChar (sep : Char) : List Char → List (List Char)
  | [] => [[]]
  | c :: rest =>
      match splitOnChar sep rest with
      | [] => [[c]]
      | h :: t => if c == sep then [] :: h :: t else (c :: h) :: t

/-- Split a character list at every occurrence of the three-character
separator `://` (model of Python `url.split('://')`, scanning left to right
over non-overlapping occurrences). -/
def splitOnUrlSep : List Char → List (List Char)
  | [] => [[]]
  | ':' :: '/' :: '/' :: rest => [] :: splitOnUrlSep rest
  | c :: rest =>
      match splitOnUrlSep rest with
      | [] => [[c]]
      | h :: t => (c :: h) :: t

/-- `re.sub(comp.extension + '$', '', comp.externalPath)` (line 134): strip the
extension from the end of the path.  (The source builds a regex from the raw
extension; for ordinary extensions this is a suffix strip.) -/
def stripExtSuffix (ext path : String) : String :=
  if ext.toList.isSuffixOf path.toList then
    String.mk (path.toList.take (path.toList.length - ext.toList.length))
  else path

/-- `.split(os.path.sep)[-1]` (line 136). -/
def lastPathSegment (s : String) : String :=
  String.mk ((splitOnChar '/' s.toList).getLastD [])

/-- `internal_nickname.replace('/', '-')` (line 140). -/
def slashesToDashes (s : String) : String :=
  String.mk (s.toList.map (fun c => if c == '/' then '-' else c))

/-- `DatasetInfo.create_nickname` (lines 127-141).  When the expanded
component files carry different extensions, line 132 raises: its f-string
names `filePath`, but the parameter is `filepath`, so evaluating the message
raises `NameError` (the intended plain `Exception` is never constructed). -/
def create_nickname (env : FsEnv) (fuel : Nat) (filepath cwd : String) :
    Except Exc (String × List String) :=
  match expandPathF env fuel filepath cwd with
  | .error e => .error e
  | .ok expanded =>
      let components := expanded.map env.pathComp
      let ext0 := (components.headD ⟨"", "", ""⟩).extension
      if components.any (fun c => c.extension ≠ ext0) then
        .error (.nameError "filePath")
      else
        let strippedLead :=
          sharedLead (components.map (fun c => stripExtSuffix c.extension c.externalPath))
        let externalNickname : Except Exc String :=
          if strippedLead ≠ "" then .ok (lastPathSegment strippedLead)
          else
            match expanded with
            | [] => .error Exc.indexError
            | p :: _ => .ok ("stack_at-" ++ (env.pathComp p).externalPath)
        match externalNickname with
        | .error e => .error e
        | .ok externalNickname =>
            let internalNickname :=
              lstripSlash (sharedLead (expanded.map (fun ep => (env.pathComp ep).internalPath)))
            let nickname :=
              externalNickname ++
                (if internalNickname ≠ "" then "-" ++ slashesToDashes internalNickname else "")
            .ok (nickname, expanded)

/-- `os.path.pathsep.join(...)` (line 113, POSIX path separator). -/
def joinWithColon : List String → String
  | [] => ""
  | [p] => p
  | p :: rest => p ++ ":" ++ joinWithColon rest

/-- The fields of a constructed `DatasetInfo` that the claims observe. -/
structure DsInit where
  nickname : String
  filePath : String
  fromstack : Bool
  location : Location
deriving Repr, DecidableEq

/-- Python truthiness of an optional string argument (`not filepath` is true
for `None` and for the empty string). -/
def truthyStr : Option String → Bool
  | none => false
  | some s => !(s == "")

/-- Line 81: `assert preloaded_array is None or not filepath`. -/
def initAssert (preloaded : Bool) (filepath : Option String) : Except Exc Unit :=
  if preloaded && truthyStr filepath then .error .assertionError else .ok ()

/-- `DatasetInfo.__init__` (lines 62-125) at the granularity the claims need:
the precondition assert, then the location-dependent branch (lines 105-119)
computing nickname, expanded file path and stack flag; `jsonNamespace` is
taken as absent.  `preloadedDtypeName` stands for
`preloaded_array.dtype.name`. -/
def datasetInfoInit (env : FsEnv) (fuel : Nat) (preloaded : Bool)
    (preloadedDtypeName : String) (filepath : Option String)
    (cwdOpt : Option String) (location : Location)
    (sequenceAxis : Option Char) (nicknameArg : String) :
    Except Exc DsInit :=
  match initAssert preloaded filepath with
  | .error e => .error e
  | .ok _ =>
      let cwd := cwdOpt.getD env.getcwd
      if preloaded then
        let nick := "preloaded-" ++ preloadedDtypeName ++ "-array"
        .ok { nickname := if nicknameArg ≠ "" then nicknameArg else nick,
              filePath := (filepath.getD ""), fromstack := false,
              location := .PreloadedArray }
      else if truthyStr filepath && !(env.isUrl (filepath.getD ""))
          && location == Location.FileSystem then
        match create_nickname env fuel (filepath.getD "") cwd with
        | .error e => .error e
        | .ok (nick, expanded) =>
            let fromstack := expanded.length > 1
            if fromstack && sequenceAxis.isNone then
              .error (.plainExc
                "sequence_axis must be specified when creating DatasetInfo out of stacks")
            else
              .ok { nickname := if nicknameArg ≠ "" then nicknameArg else nick,
                    filePath := joinWithColon expanded,
                    fromstack := fromstack, location := .FileSystem }
      else
        .ok { nickname := nicknameArg, filePath := filepath.getD "",
              fromstack := false, location := location }

/-- `OpExportDvidVolume.run_export` (opExportDvidVolume.py lines 32-63) on the
control-flow level: the value returned on success is the sequence of integers
passed to `progressSignal`, in order.  The DVID client calls and the array
fetch are external and modelled as succeeding (a run on which they fail is not
a successful run). -/
def run_export (transposeAxes : Bool) (url : String) : Except Exc (List Nat) :=
  let trace := [0]                                   -- self.progressSignal(0)
  match (splitOnUrlSep url.toList).drop 1 with
  | [] => .error .indexError                         -- url.split('://')[1]
  | urlPath :: _ =>
      match splitOnChar '/' urlPath with
      | [_hostname, api, node, _uuid, _dataname] =>
          if !(api == "api".toList) then .error .assertionError
          else if !(node == "node".toList) then .error .assertionError
          else
            -- data fetch, optional transpose, MetaInfo construction
            let _ := transposeAxes
            let trace := trace ++ [5]                -- self.progressSignal(5)
            -- create_volume, modify_subvolume
            let trace := trace ++ [100]              -- self.progressSignal(100)
            .ok trace
      | _ => .error .valueError        -- unpacking into five names fails

/-- Modelled from the spec: the dimensionality check behind
`OpDataSelection.InvalidDimensionalityError`.  The error class is declared in
src (opDataSelection.py lines 383-391, "Raised if the user tries to replace
the dataset with a new one of differing dimensionality"), but its raise site
is not under src/.  Spec: "replacing a connected dataset with one of
different rank than previously configured is a distinct, explicitly named
error", which "leaves the previous configuration's outputs untouched if
rollback is implemented, or cleanly not-ready otherwise"; the model rejects
the replacement before any reconfiguration, leaving the state untouched, and
otherwise reconfigures through `setupOutputs`. -/
def replaceDataset (prevRank newRank : Nat) (cfg : Config) (fails : Oracle)
    (s : OpState) : Except Exc Unit × OpState :=
  if newRank ≠ prevRank then
    (.error (.invalidDimensionality
      "Can't replace dataset with one of different dimensionality"), s)
  else setupOutputs cfg fails s

instance {ε α : Type} [DecidableEq ε] [DecidableEq α] : DecidableEq (Except ε α) :=
  fun a b =>
    match a, b with
    | .ok x, .ok y =>
        if h : x = y then isTrue (by rw [h])
        else isFalse (by intro hh; cases hh; exact h rfl)
    | .error x, .error y =>
        if h : x = y then isTrue (by rw [h])
        else isFalse (by intro hh; cases hh; exact h rfl)
    | .ok _, .error _ => isFalse (fun hh => Except.noConfusion hh)
    | .error _, .ok _ => isFalse (fun hh => Except.noConfusion hh)

/-- The claim's tie-break rule in the spec's words: `y` occurs in `l`, no
element is shorter, and every earlier element is strictly longer (the first
candidate of minimal length in declaration order). -/
def SpecFirstShortest (l : List (List Char)) (y : List Char) : Prop :=
  ∃ n, n < l.length ∧ l.getD n [] = y ∧ (∀ z ∈ l, y.length ≤ z.length) ∧
    (∀ m, m < n → y.length < (l.getD m []).length)

/-- End-to-end scenario A's configuration: a provider of shape
`(1, 1, 50, 50, 1)` with axes `tzyxc`, candidate orders `["tczyx"]`. -/
def cfgA : Config :=
  { location := .PreloadedArray, realDataSource := true, subvolumeRoi := none,
    providerTagged := [('t', 1), ('z', 1), ('y', 50), ('x', 50), ('c', 1)],
    providerDtypeUint8 := false, dsDrange := none, dsNormalizeDisplay := none,
    dsAxistags := none, dsOriginalAxistags := none, dsDisplayMode := "default",
    dsAllowLabels := true, roleName := "Raw Data",
    forceAxisOrder := ["tczyx".toList] }

/-- A filesystem dataset whose reader raises while being configured: the
external call at site 9 (`opReader.FilePath.setValue`, line 450) fails. -/
def cfgCE : Config :=
  { location := .FileSystem, realDataSource := true, subvolumeRoi := none,
    providerTagged := [('y', 50), ('x', 50)],
    providerDtypeUint8 := false, dsDrange := none, dsNormalizeDisplay := none,
    dsAxistags := none, dsOriginalAxistags := none, dsDisplayMode := "default",
    dsAllowLabels := true, roleName := "Raw Data",
    forceAxisOrder := ["tczyx".toList] }

/-- Oracle failing exactly at site 9 (`FilePath.setValue` on the fresh
`OpInputDataReader`). -/
def failsCE : Oracle := fun n => n == 9

/-- A provider without the required spatial axes (only `t` and `c`). -/
def cfgNoXY : Config :=
  { cfgA with providerTagged := [('t', 10), ('c', 2)] }

/-- A provider with unset dataset `drange` and uint8 dtype. -/
def cfgU8 : Config :=
  { cfgA with providerDtypeUint8 := true }

/-- An operator state with three live readers and connected outputs. -/
def stC8 : OpState :=
  { nextId := 3, opReaders := [0, 1, 2], constructed := [0, 1, 2],
    appendLog := [0, 1, 2], cleanedUp := [],
    imageMeta := some [('y', 2), ('x', 2), ('c', 1)],
    nonTransposedMeta := some [('y', 2), ('x', 2), ('c', 1)],
    allowLabelsReady := true, imageNameReady := true }

/-- A filesystem with two stack components carrying different extensions
(`.png` and `.jpg`). -/
def envC5 : FsEnv :=
  { pathComp := fun p =>
      if p == "/data/a.png" then
        { externalPath := "/data/a.png", internalPath := "", extension := ".png" }
      else
        { externalPath := "/data/b.jpg", internalPath := "", extension := ".jpg" },
    splitPath := fun s =>
      if s == "/data/a.png:/data/b.jpg" then ["/data/a.png", "/data/b.jpg"] else [s],
    glob := fun p => [p],
    expanduser := fun p => p,
    isabs := fun _ => true,
    join := fun a b => a ++ "/" ++ b,
    globH5N5 := fun _ _ => [],
    isUrl := fun _ => false,
    getcwd := "/cwd" }

/-- A filesystem on which every glob comes back empty (no file matches). -/
def envC6 : FsEnv :=
  { pathComp := fun p => { externalPath := p, internalPath := "", extension := ".png" },
    splitPath := fun s => [s],
    glob := fun _ => [],
    expanduser := fun p => p,
    isabs := fun _ => true,
    join := fun a b => a ++ "/" ++ b,
    globH5N5 := fun _ _ => [],
    isUrl := fun _ => false,
    getcwd := "/cwd" }

/-! ## Theorems -/

/-- Claim C8: `internalCleanup` is idempotent, and one call on a state with a
non-empty reader list disconnects the `Image` and `_NonTransposedImage`
outputs, cleans up the readers in reverse creation order, and leaves the
reader list empty; a second consecutive call changes nothing. -/
theorem internalCleanup_idempotent_reverse (s : OpState) :
    internalCleanup (internalCleanup s) = internalCleanup s ∧
    (s.opReaders ≠ [] →
      (internalCleanup s).opReaders = [] ∧
      (internalCleanup s).imageMeta = none ∧
      (internalCleanup s).nonTransposedMeta = none ∧
      (internalCleanup s).cleanedUp = s.cleanedUp ++ s.opReaders.reverse) := by
  unfold internalCleanup
  by_cases h : s.opReaders = [] <;> simp [h]

/-- Closed instance of `internalCleanup_idempotent_reverse` at a state with
three live readers. -/
theorem internalCleanup_idempotent_reverse_witness :
    internalCleanup (internalCleanup stC8) = internalCleanup stC8 ∧
    (internalCleanup stC8).opReaders = [] ∧
    (internalCleanup stC8).imageMeta = none ∧
    (internalCleanup stC8).nonTransposedMeta = none ∧
    (internalCleanup stC8).cleanedUp = [2, 1, 0] := by
  obtain ⟨h1, h2⟩ := internalCleanup_idempotent_reverse stC8
  obtain ⟨a, b, c, d⟩ := h2 (by decide)
  exact ⟨h1, a, b, c, by rw [d]; rfl⟩

/-- Claim C9: supplying both a preloaded array and a non-empty filepath to the
`DatasetInfo` constructor trips the line-81 assertion and construction fails;
when at most one of the two is supplied (Python falsiness: `None` or the empty
string), the assertion passes. -/
theorem datasetInfo_preloaded_filepath_assert (env : FsEnv) (fuel : Nat)
    (dtypeName nick fp : String) (cwdOpt : Option String) (loc : Location)
    (seqAxis : Option Char) (preloaded : Bool) (filepath : Option String)
    (hfp : fp ≠ "") (hno : (preloaded && truthyStr filepath) = false) :
    datasetInfoInit env fuel true dtypeName (some fp) cwdOpt loc seqAxis nick
        = .error .assertionError ∧
    initAssert preloaded filepath = .ok () := by
  constructor
  · unfold datasetInfoInit initAssert truthyStr
    simp [hfp]
  · unfold initAssert
    simp [hno]

/-- Closed instance of `datasetInfo_preloaded_filepath_assert`: both supplied
fails, neither supplied passes. -/
theorem datasetInfo_preloaded_filepath_assert_witness :
    datasetInfoInit envC6 9 true "uint8" (some "/data/a.png") none
        .FileSystem none "" = .error .assertionError ∧
    initAssert false none = .ok () :=
  datasetInfo_preloaded_filepath_assert envC6 9 "uint8" "" "/data/a.png"
    none .FileSystem none false none (by decide) (by decide)

/-- Claim C7: on every successful `run_export`, the values passed to the
progress callback are integers bounded by 100, starting at 0, ending at 100,
and nondecreasing. -/
theorem run_export_progress (t : Bool) (url : String) (tr : List Nat)
    (h : run_export t url = .ok tr) :
    tr.head? = some 0 ∧ tr.getLast? = some 100 ∧
    List.Chain' (· ≤ ·) tr ∧ ∀ p ∈ tr, p ≤ 100 := by
  have htr : tr = [0, 5, 100] := by
    unfold run_export at h
    repeat' split at h
    all_goals simp_all
  subst htr
  refine ⟨rfl, rfl, ?_, ?_⟩
  · simp [List.chain'_cons]
  · decide

/-- Closed instance of `run_export_progress` on a concrete DVID node URL. -/
theorem run_export_progress_witness :
    run_export true "http://localhost:8000/api/node/abcde/indices_data"
        = .ok [0, 5, 100] ∧
    ([0, 5, 100] : List Nat).head? = some 0 ∧
    ([0, 5, 100] : List Nat).getLast? = some 100 ∧
    List.Chain' (· ≤ ·) ([0, 5, 100] : List Nat) ∧
    ∀ p ∈ ([0, 5, 100] : List Nat), p ≤ 100 := by
  refine ⟨rfl, ?_⟩
  exact run_export_progress true "http://localhost:8000/api/node/abcde/indices_data"
    [0, 5, 100] rfl

/-- Claim C10: in the metadata injected by `setupOutputs`, the display range
equals `datasetInfo.drange` when that is set; with it unset the injected range
is exactly `(0, 255)` for uint8 providers, and no `drange` key is injected for
non-uint8 providers. -/
theorem setupOutputs_drange_injection (cfg : Config) (md : Metadata)
    (h : buildMetadata cfg = .ok md) :
    (∀ d, cfg.dsDrange = some d → md.drange = some d) ∧
    (cfg.dsDrange = none → cfg.providerDtypeUint8 = true →
      md.drange = some ((0 : Int), (255 : Int))) ∧
    (cfg.dsDrange = none → cfg.providerDtypeUint8 = false →
      md.drange = none) := by
  unfold buildMetadata at h
  split at h
  · exact Except.noConfusion h
  · injection h with h
    subst h
    refine ⟨?_, ?_, ?_⟩
    · intro d hd
      simp [drangeOf, hd]
    · intro hd hu
      simp [drangeOf, hd, hu]
    · intro hd hu
      simp [drangeOf, hd, hu]

/-- Closed instance of `setupOutputs_drange_injection` for a uint8 provider
with unset dataset drange. -/
theorem setupOutputs_drange_injection_witness :
    ∃ md, buildMetadata cfgU8 = .ok md ∧ md.drange = some ((0 : Int), (255 : Int)) := by
  refine ⟨_, rfl, ?_⟩
  exact (setupOutputs_drange_injection cfgU8 _ rfl).2.1 rfl rfl

/-- Claim C4: replacing the configured dataset with one of a different rank
raises the distinct `InvalidDimensionalityError` and leaves the operator's
state untouched at the previous configuration; with equal rank the
replacement reconfigures through `setupOutputs`. -/
theorem replaceDataset_dimensionality (prevRank newRank : Nat) (cfg : Config)
    (fails : Oracle) (s : OpState) :
    (newRank ≠ prevRank →
      replaceDataset prevRank newRank cfg fails s =
        (.error (.invalidDimensionality
          "Can't replace dataset with one of different dimensionality"), s)) ∧
    (newRank = prevRank →
      replaceDataset prevRank newRank cfg fails s = setupOutputs cfg fails s) := by
  unfold replaceDataset
  constructor <;> intro h <;> simp [h]

/-- Closed instance of `replaceDataset_dimensionality`: replacing a 5D
configuration with a 2D dataset errors without touching the state. -/
theorem replaceDataset_dimensionality_witness :
    replaceDataset 5 2 cfgA noFail stC8 =
      (.error (.invalidDimensionality
        "Can't replace dataset with one of different dimensionality"), stC8) :=
  (replaceDataset_dimensionality 5 2 cfgA noFail stC8).1 (by decide)

/-- Claim C6: when the glob of the (first) path component matches no existing
file, `DatasetInfo.expandPath` raises the resolution error right away, and so
does `DatasetInfo` construction for a filesystem-located dataset — the error
is not deferred to a later read. -/
theorem expandPath_missing_file_eager (env : FsEnv) (fuel : Nat)
    (fp cwd dtypeName nick : String) (seqAxis : Option Char)
    (c : PathComp) (rest : List PathComp)
    (hsplit : (env.splitPath fp).map env.pathComp = c :: rest)
    (hglob : env.glob (env.expanduser (if env.isabs c.externalPath then
        c.externalPath else env.join cwd c.externalPath)) = [])
    (hfp : fp ≠ "") (hurl : env.isUrl fp = false) :
    expandPathF env (fuel + 2) fp cwd
        = .error (.plainExc ("Could not find file at " ++ c.externalPath)) ∧
    datasetInfoInit env (fuel + 2) false dtypeName (some fp) (some cwd)
        .FileSystem seqAxis nick
        = .error (.plainExc ("Could not find file at " ++ c.externalPath)) := by
  have hcomps : expandRun env (fuel + 1) (.comps (c :: rest) cwd)
      = .error (.plainExc ("Could not find file at " ++ c.externalPath)) := by
    unfold expandRun
    simp [hglob]
  have hstep : expandPathF env (fuel + 2) fp cwd
      = match expandRun env (fuel + 1)
          (.comps ((env.splitPath fp).map env.pathComp) cwd) with
        | .error e => .error e
        | .ok paths => .ok (sortStrings paths) := rfl
  have hmain : expandPathF env (fuel + 2) fp cwd
      = .error (.plainExc ("Could not find file at " ++ c.externalPath)) := by
    rw [hstep, hsplit, hcomps]
  refine ⟨hmain, ?_⟩
  unfold datasetInfoInit initAssert create_nickname
  simp [truthyStr, hfp, hurl, hmain]
  rfl

/-- Closed instance of `expandPath_missing_file_eager` on a filesystem where
no file matches the requested pattern. -/
theorem expandPath_missing_file_eager_witness :
    expandPathF envC6 9 "/data/missing.png" "/cwd"
        = .error (.plainExc "Could not find file at /data/missing.png") ∧
    datasetInfoInit envC6 9 false "uint8" (some "/data/missing.png")
        (some "/cwd") .FileSystem none ""
        = .error (.plainExc "Could not find file at /data/missing.png") :=
  expandPath_missing_file_eager envC6 7 "/data/missing.png" "/cwd" "uint8" ""
    none { externalPath := "/data/missing.png", internalPath := "", extension := ".png" }
    [] rfl rfl (by decide) rfl

/-- Claim C5 counterexample: a two-file stack with extensions `.png` and
`.jpg` makes `DatasetInfo.create_nickname` raise — but the raised exception is
a `NameError` (the message f-string at line 132 names the undefined variable
`filePath`), not the constraint-violation signal, and it carries no operator
name. -/
theorem create_nickname_mixed_ext_cex :
    create_nickname envC5 9 "/data/a.png:/data/b.jpg" "/cwd"
        = .error (.nameError "filePath") ∧
    (Exc.nameError "filePath").isConstraintError = false :=
  ⟨rfl, rfl⟩

/-- Claim C5 (amended): whenever the expanded component files of a stack do
not all share one extension, `create_nickname` raises — but the exception is
the `NameError` produced by the broken f-string of line 132, never the
constraint-violation signal, and it carries no operator name. -/
theorem create_nickname_mixed_ext_nameError (env : FsEnv) (fuel : Nat)
    (fp cwd : String) (expanded : List String) (p q : String)
    (hexp : expandPathF env fuel fp cwd = .ok expanded)
    (hp : p ∈ expanded) (hq : q ∈ expanded)
    (hne : (env.pathComp p).extension ≠ (env.pathComp q).extension) :
    create_nickname env fuel fp cwd = .error (.nameError "filePath") ∧
    (∀ e, create_nickname env fuel fp cwd = .error e →
      e.isConstraintError = false) := by
  have hany : (expanded.map env.pathComp).any
      (fun comp => decide (comp.extension ≠
        ((expanded.map env.pathComp).headD
          { externalPath := "", internalPath := "", extension := "" }).extension)) = true := by
    rcases Decidable.em ((env.pathComp p).extension =
        ((expanded.map env.pathComp).headD
          { externalPath := "", internalPath := "", extension := "" }).extension) with hpe | hpe
    · refine List.any_eq_true.mpr ⟨env.pathComp q, List.mem_map_of_mem _ hq, ?_⟩
      have hqe : (env.pathComp q).extension ≠
          ((expanded.map env.pathComp).headD
            { externalPath := "", internalPath := "", extension := "" }).extension :=
        fun hh => hne (hpe.trans hh.symm)
      simpa using hqe
    · exact List.any_eq_true.mpr ⟨env.pathComp p, List.mem_map_of_mem _ hp, by simpa using hpe⟩
  have h1 : create_nickname env fuel fp cwd = .error (.nameError "filePath") := by
    unfold create_nickname
    rw [hexp]
    simp only [hany, if_true]
  refine ⟨h1, fun e he => ?_⟩
  rw [h1] at he
  injection he with he
  rw [← he]
  rfl

/-- Closed instance of `create_nickname_mixed_ext_nameError` on the
`.png`/`.jpg` stack. -/
theorem create_nickname_mixed_ext_nameError_witness :
    create_nickname envC5 9 "/data/a.png:/data/b.jpg" "/cwd"
        = .error (.nameError "filePath") :=
  (create_nickname_mixed_ext_nameError envC5 9 "/data/a.png:/data/b.jpg" "/cwd"
    ["/data/a.png", "/data/b.jpg"] "/data/a.png" "/data/b.jpg" rfl
    (by decide) (by decide) (by decide)).1

lemma mkProvider_err (cfg : Config) (fails : Oracle) (s sf : OpState) (e : Exc)
    (h : mkProvider cfg fails s = .error (e, sf)) :
    sf.opReaders = s.opReaders ∧ sf.appendLog = s.appendLog ∧
    sf.cleanedUp = s.cleanedUp ∧ sf.imageMeta = s.imageMeta ∧
    sf.nonTransposedMeta = s.nonTransposedMeta := by
  obtain ⟨loc, real, sub, pt, u8, dr, nd, ax, oax, dm, al, rn, fo⟩ := cfg
  cases loc <;> simp only [mkProvider, constructOp, appendReader] at h <;>
    repeat' split at h
  all_goals first
    | exact Except.noConfusion h
    | (injection h with h; injection h with h1 h2; subst h1; subst h2;
       exact ⟨rfl, rfl, rfl, rfl, rfl⟩)

lemma mkProvider_ok (cfg : Config) (fails : Oracle) (s s2 : OpState)
    (h : mkProvider cfg fails s = .ok s2) :
    s2.opReaders = s.opReaders ++ [s.nextId] ∧
    s2.appendLog = s.appendLog ++ [s.nextId] ∧
    s2.cleanedUp = s.cleanedUp ∧ s2.imageMeta = s.imageMeta ∧
    s2.nonTransposedMeta = s.nonTransposedMeta := by
  obtain ⟨loc, real, sub, pt, u8, dr, nd, ax, oax, dm, al, rn, fo⟩ := cfg
  cases loc <;> simp only [mkProvider, constructOp, appendReader] at h <;>
    repeat' split at h
  all_goals first
    | exact Except.noConfusion h
    | (injection h with h; subst h; exact ⟨rfl, rfl, rfl, rfl, rfl⟩)

lemma tryBody_err (cfg : Config) (fails : Oracle) (s : OpState) (e : Exc)
    (sf : OpState) (hs : s.opReaders = [])
    (h : tryBody cfg fails s = .error (e, sf)) :
    sf.cleanedUp = s.cleanedUp ∧
    sf.appendLog = s.appendLog ++ sf.opReaders ∧
    (sf.opReaders = [] →
      sf.imageMeta = s.imageMeta ∧ sf.nonTransposedMeta = s.nonTransposedMeta) := by
  unfold tryBody at h
  cases hmk : mkProvider cfg fails s with
  | error es =>
      rw [hmk] at h
      simp only [] at h
      injection h with h
      subst h
      obtain ⟨r1, r2, r3, r4, r5⟩ := mkProvider_err cfg fails s sf e hmk
      exact ⟨r3, by rw [r2, r1, hs]; simp, fun _ => ⟨r4, r5⟩⟩
  | ok s2 =>
      rw [hmk] at h
      simp only [] at h
      obtain ⟨k1, k2, k3, k4, k5⟩ := mkProvider_ok cfg fails s s2 hmk
      simp only [constructOp, appendReader] at h
      repeat' split at h
      all_goals first
        | exact Except.noConfusion h
        | (injection h with h; injection h with h1 h2; subst h1; subst h2;
           refine ⟨by simp [k3], by simp [k2, k1, hs], fun hz => ?_⟩;
           · first
               | exact ⟨k4, k5⟩
               | (exfalso; revert hz; simp [k1, hs]))

/-- Claim C3 counterexample: with the external call at site 9
(`opReader.FilePath.setValue`, line 450) raising, `setupOutputs` constructs
the `OpInputDataReader` child (id 0) but fails before the `append` of line
462, so the `except` handler's `internalCleanup` never tears it down: a child
operator constructed during the call survives the exception un-cleaned. -/
theorem setupOutputs_cleanup_leak_cex :
    (setupOutputs cfgCE failsCE initState).1 = .error (.external 9) ∧
    0 ∈ (setupOutputs cfgCE failsCE initState).2.constructed ∧
    0 ∉ (setupOutputs cfgCE failsCE initState).2.cleanedUp := by
  refine ⟨rfl, ?_, ?_⟩ <;> decide

/-- Claim C3 (amended): when `setupOutputs` raises, the exception the caller
sees is the one from the try-body (bare `raise`), the reader list ends empty,
`Image` and `_NonTransposedImage` end disconnected, and exactly the child
operators that were appended to the reader list during the call are cleaned
up, in reverse append order.  (Children constructed but not yet appended to
the reader list are not cleaned up.) -/
theorem setupOutputs_error_cleanup (cfg : Config) (fails : Oracle)
    (s0 : OpState) (e : Exc) (s' : OpState)
    (hwf : s0.opReaders = [] → s0.imageMeta = none ∧ s0.nonTransposedMeta = none)
    (h : setupOutputs cfg fails s0 = (.error e, s')) :
    s'.opReaders = [] ∧ s'.imageMeta = none ∧ s'.nonTransposedMeta = none ∧
    s'.cleanedUp = (internalCleanup s0).cleanedUp ++
      (s'.appendLog.drop (internalCleanup s0).appendLog.length).reverse := by
  have h1empty : (internalCleanup s0).opReaders = [] := by
    unfold internalCleanup
    split <;> simp_all
  have h1meta : (internalCleanup s0).imageMeta = none ∧
      (internalCleanup s0).nonTransposedMeta = none := by
    unfold internalCleanup
    split
    · simp_all
    · simp
  unfold setupOutputs at h
  cases htb : tryBody cfg fails (internalCleanup s0) with
  | ok s2 =>
      rw [htb] at h
      exact absurd (congrArg Prod.fst h) (by simp)
  | error esf =>
      obtain ⟨e', sf⟩ := esf
      rw [htb] at h
      injection h with h1 hs'
      obtain ⟨t1, t2, t3⟩ := tryBody_err cfg fails (internalCleanup s0) e' sf h1empty htb
      by_cases hsf : sf.opReaders = []
      · have hcl : internalCleanup sf = sf := by unfold internalCleanup; rw [if_pos hsf]
        rw [hcl] at hs'
        subst hs'
        obtain ⟨m1, m2⟩ := t3 hsf
        refine ⟨hsf, m1.trans h1meta.1, m2.trans h1meta.2, ?_⟩
        rw [t1, t2, hsf]
        simp
      · have hcl : internalCleanup sf =
            { sf with imageMeta := none, nonTransposedMeta := none,
                      cleanedUp := sf.cleanedUp ++ sf.opReaders.reverse,
                      opReaders := [] } := by
          unfold internalCleanup; rw [if_neg hsf]
        rw [hcl] at hs'
        subst hs'
        refine ⟨rfl, rfl, rfl, ?_⟩
        simp only []
        rw [t1, t2]
        simp

lemma internalCleanup_of_empty (s : OpState) (h : s.opReaders = []) :
    internalCleanup s = s := by
  unfold internalCleanup
  rw [if_pos h]

lemma mkProvider_noFail (cfg : Config) (s : OpState) :
    mkProvider cfg noFail s = .ok
      { s with nextId := s.nextId + 1,
               constructed := s.constructed ++ [s.nextId],
               opReaders := s.opReaders ++ [s.nextId],
               appendLog := s.appendLog ++ [s.nextId] } := by
  obtain ⟨loc, real, sub, pt, u8, dr, nd, ax, oax, dm, al, rn, fo⟩ := cfg
  cases loc <;> cases real <;>
    simp [mkProvider, noFail, constructOp, appendReader]

lemma buildMetadata_none (cfg : Config) (hax : cfg.dsAxistags = none) :
    buildMetadata cfg = .ok
      { displayMode := cfg.dsDisplayMode, channelNames := channelNamesOf cfg,
        drange := drangeOf cfg, normalizeDisplay := cfg.dsNormalizeDisplay,
        axistags := none, originalAxistags := cfg.dsOriginalAxistags,
        subvolumeRoi := cfg.subvolumeRoi } := by
  unfold buildMetadata axistagsOverride
  rw [hax]

lemma firstShortest_none_iff (l : List (List Char)) :
    firstShortest l = none ↔ l = [] := by
  cases l with
  | nil => simp [firstShortest]
  | cons x xs =>
      unfold firstShortest
      constructor
      · intro h
        split at h <;> [exact Option.noConfusion h; skip]
        split at h <;> exact Option.noConfusion h
      · intro h
        exact List.noConfusion h

lemma selectOutputOrder_error (force : List (List Char))
    (effTagged : List (Char × Nat)) (e : Exc)
    (h : selectOutputOrder force effTagged = .error e) :
    e = .datasetConstraint "DataSelection"
      (.incompatibleAxes (effTagged.map Prod.fst) force) := by
  unfold selectOutputOrder at h
  simp only [] at h
  repeat' split at h
  all_goals first
    | exact Except.noConfusion h
    | (injection h with h; exact h.symm)

lemma firstShortest_spec (l : List (List Char)) (y : List Char)
    (h : firstShortest l = some y) : SpecFirstShortest l y := by
  induction l generalizing y with
  | nil => exact Option.noConfusion h
  | cons x xs ih =>
      unfold firstShortest at h
      cases hxs : firstShortest xs with
      | none =>
          rw [hxs] at h
          injection h with h
          subst h
          have hempty : xs = [] := (firstShortest_none_iff xs).mp hxs
          subst hempty
          exact ⟨0, by simp, by simp, by simp, by omega⟩
      | some y0 =>
          rw [hxs] at h
          simp only [] at h
          obtain ⟨n, hn, hg, hall, hbefore⟩ := ih y0 hxs
          by_cases hlen : y0.length < x.length
          · rw [if_pos hlen] at h
            injection h with h
            subst h
            refine ⟨n + 1, by simpa using hn, by simpa using hg, ?_, ?_⟩
            · intro z hz
              rcases List.mem_cons.mp hz with rfl | hz
              · exact le_of_lt hlen
              · exact hall z hz
            · intro m hm
              cases m with
              | zero => simpa using hlen
              | succ m' => simpa using hbefore m' (by omega)
          · rw [if_neg hlen] at h
            injection h with h
            subst h
            refine ⟨0, by simp, by simp, ?_, by omega⟩
            intro z hz
            rcases List.mem_cons.mp hz with rfl | hz
            · exact le_refl _
            · exact le_trans (not_lt.mp hlen) (hall z hz)

/-- Claim C2: with no external failure and no axis reinterpretation,
`setupOutputs` raises `DatasetConstraintError` whenever the provider's axes
lack `x` or lack `y`, and then no output slot of a freshly constructed
operator becomes ready; when both axes are present this check does not
raise. -/
theorem setupOutputs_requires_xy (cfg : Config) (s0 : OpState)
    (hax : cfg.dsAxistags = none) (h0 : s0.opReaders = [])
    (hA : s0.allowLabelsReady = false) (hN : s0.imageNameReady = false) :
    (('x' ∉ cfg.providerTagged.map Prod.fst ∨
      'y' ∉ cfg.providerTagged.map Prod.fst) →
      (setupOutputs cfg noFail s0).1 =
          .error (.datasetConstraint "DataSelection" .missingXY) ∧
      (setupOutputs cfg noFail s0).2.imageMeta = none ∧
      (setupOutputs cfg noFail s0).2.nonTransposedMeta = none ∧
      (setupOutputs cfg noFail s0).2.allowLabelsReady = false ∧
      (setupOutputs cfg noFail s0).2.imageNameReady = false) ∧
    ('x' ∈ cfg.providerTagged.map Prod.fst →
      'y' ∈ cfg.providerTagged.map Prod.fst →
      (setupOutputs cfg noFail s0).1 ≠
        .error (.datasetConstraint "DataSelection" .missingXY)) := by
  have hs1 : internalCleanup s0 = s0 := internalCleanup_of_empty s0 h0
  constructor
  · intro hmiss
    have hcond : (!((cfg.providerTagged.map Prod.fst).contains 'x')
        || !((cfg.providerTagged.map Prod.fst).contains 'y')) = true := by
      rcases hmiss with hx | hy
      · simp [hx]
      · simp [hy]
    unfold setupOutputs tryBody
    rw [hs1, mkProvider_noFail, buildMetadata_none cfg hax]
    simp only [noFail, Bool.false_eq_true, if_false, constructOp, appendReader,
      effectiveTagged, hcond, if_true, internalCleanup, h0, hA, hN]
    simp [h0, hA, hN, internalCleanup]
  · intro hx hy
    have hcond : (!((cfg.providerTagged.map Prod.fst).contains 'x')
        || !((cfg.providerTagged.map Prod.fst).contains 'y')) = false := by
      simp [hx, hy]
    unfold setupOutputs tryBody
    rw [hs1, mkProvider_noFail, buildMetadata_none cfg hax]
    simp only [noFail, Bool.false_eq_true, if_false, constructOp, appendReader,
      effectiveTagged, hcond]
    cases hsel : selectOutputOrder cfg.forceAxisOrder cfg.providerTagged with
    | error e =>
        have he := selectOutputOrder_error _ _ _ hsel
        subst he
        simp
    | ok o => simp

/-- Closed instance of `setupOutputs_requires_xy` (end-to-end scenario C): a
provider with axes `tc` only; the constraint error is raised and no output
becomes ready. -/
theorem setupOutputs_requires_xy_witness :
    (setupOutputs cfgNoXY noFail initState).1 =
        .error (.datasetConstraint "DataSelection" .missingXY) ∧
    (setupOutputs cfgNoXY noFail initState).2.imageMeta = none ∧
    (setupOutputs cfgNoXY noFail initState).2.nonTransposedMeta = none ∧
    (setupOutputs cfgNoXY noFail initState).2.allowLabelsReady = false ∧
    (setupOutputs cfgNoXY noFail initState).2.imageNameReady = false :=
  (setupOutputs_requires_xy cfgNoXY initState rfl rfl rfl rfl).1 (by decide)

/-- Claim C1: with a non-empty candidate list (and no external failure, no
axis reinterpretation, both spatial axes present), `setupOutputs` selects the
first shortest candidate order containing every provider axis of extent
greater than one, appends `c` when the chosen order lacks it, and connects
`Image` through the reordering stage to that order; when no candidate
qualifies it raises `DatasetConstraintError`. -/
theorem setupOutputs_forceAxisOrder_selection (cfg : Config) (s0 : OpState)
    (hax : cfg.dsAxistags = none) (h0 : s0.opReaders = [])
    (hne : cfg.forceAxisOrder ≠ [])
    (hx : 'x' ∈ cfg.providerTagged.map Prod.fst)
    (hy : 'y' ∈ cfg.providerTagged.map Prod.fst) :
    (cfg.forceAxisOrder.filter (fun o =>
        ((cfg.providerTagged.filter (fun kv => kv.2 > 1)).map Prod.fst).all
          (fun a => o.contains a)) = [] →
      (setupOutputs cfg noFail s0).1 =
        .error (.datasetConstraint "DataSelection"
          (.incompatibleAxes (cfg.providerTagged.map Prod.fst)
            cfg.forceAxisOrder))) ∧
    (∀ o, firstShortest (cfg.forceAxisOrder.filter (fun o' =>
        ((cfg.providerTagged.filter (fun kv => kv.2 > 1)).map Prod.fst).all
          (fun a => o'.contains a))) = some o →
      SpecFirstShortest (cfg.forceAxisOrder.filter (fun o' =>
        ((cfg.providerTagged.filter (fun kv => kv.2 > 1)).map Prod.fst).all
          (fun a => o'.contains a))) o ∧
      (setupOutputs cfg noFail s0).1 = .ok () ∧
      (setupOutputs cfg noFail s0).2.imageMeta =
        some (reorderTagged cfg.providerTagged
          (if o.contains 'c' then o else o ++ ['c']))) := by
  have hs1 : internalCleanup s0 = s0 := internalCleanup_of_empty s0 h0
  have hcond : (!((cfg.providerTagged.map Prod.fst).contains 'x')
      || !((cfg.providerTagged.map Prod.fst).contains 'y')) = false := by
    simp [hx, hy]
  constructor
  · intro hqual
    have hsel : selectOutputOrder cfg.forceAxisOrder cfg.providerTagged
        = .error (.datasetConstraint "DataSelection"
            (.incompatibleAxes (cfg.providerTagged.map Prod.fst)
              cfg.forceAxisOrder)) := by
      unfold selectOutputOrder
      rw [if_pos hne]
      simp only []
      rw [hqual]
      rfl
    unfold setupOutputs tryBody
    rw [hs1, mkProvider_noFail, buildMetadata_none cfg hax]
    simp only [noFail, Bool.false_eq_true, if_false, constructOp, appendReader,
      effectiveTagged, hcond]
    rw [hsel]
  · intro o ho
    have hspec := firstShortest_spec _ _ ho
    have hsel : selectOutputOrder cfg.forceAxisOrder cfg.providerTagged
        = .ok o := by
      unfold selectOutputOrder
      rw [if_pos hne]
      simp only []
      rw [ho]
    refine ⟨hspec, ?_⟩
    unfold setupOutputs tryBody
    rw [hs1, mkProvider_noFail, buildMetadata_none cfg hax]
    simp only [noFail, Bool.false_eq_true, if_false, constructOp, appendReader,
      effectiveTagged, hcond]
    rw [hsel]
    simp

/-- Closed instance of `setupOutputs_forceAxisOrder_selection` (end-to-end
scenario A): provider shape `(1, 1, 50, 50, 1)` axes `tzyxc` with candidates
`["tczyx"]` yields axis order `tczyx` and shape `(1, 1, 1, 50, 50)`. -/
theorem setupOutputs_forceAxisOrder_selection_witness :
    (setupOutputs cfgA noFail initState).1 = .ok () ∧
    (setupOutputs cfgA noFail initState).2.imageMeta =
      some [('t', 1), ('c', 1), ('z', 1), ('y', 50), ('x', 50)] := by
  have h := (setupOutputs_forceAxisOrder_selection cfgA initState rfl rfl
    (by decide) (by decide) (by decide)).2 ("tczyx".toList) (by decide)
  exact ⟨h.2.1, h.2.2.trans (by decide)⟩

/-- Closed instance of `setupOutputs_error_cleanup` at the failing run of
`setupOutputs_cleanup_leak_cex`. -/
theorem setupOutputs_error_cleanup_witness :
    (setupOutputs cfgCE failsCE initState).2.opReaders = [] ∧
    (setupOutputs cfgCE failsCE initState).2.imageMeta = none ∧
    (setupOutputs cfgCE failsCE initState).2.nonTransposedMeta = none ∧
    (setupOutputs cfgCE failsCE initState).2.cleanedUp =
      (internalCleanup initState).cleanedUp ++
      (((setupOutputs cfgCE failsCE initState).2.appendLog).drop
        (internalCleanup initState).appendLog.length).reverse :=
  setupOutputs_error_cleanup cfgCE failsCE initState (.external 9)
    ((setupOutputs cfgCE failsCE initState).2) (by decide) (by decide)
